import Mathlib

/-!
Verification of the Orca public-API client (Rust crate `api-orca-so-rs`):
a shallow embedding of its request builders (`src/client/client.rs`) and
response deserializers (`src/models/models.rs`), with theorems settling the
specification's claims about query-string construction and JSON decoding.

JSON values and serde's derived deserialization are modelled explicitly:
an object is an ordered list of key/value pairs, a derived struct decoder
looks up each field by its wire key (serde `rename`), unknown extra fields
are ignored, a required field that is missing fails the decode, and an
`Option`-typed field that is missing or `null` decodes to `none`.
JSON numbers are modelled as integers, which covers every numeric field of
this crate (all are Rust integer types; decimal quantities travel as
strings in this API).
-/

namespace Orca

/-- Model of a JSON value. -/
inductive Json where
  | null : Json
  | bool (b : Bool) : Json
  | num (n : Int) : Json
  | str (s : String) : Json
  | arr (elems : List Json) : Json
  | obj (fields : List (String × Json)) : Json
deriving Repr

/-- Look up the first occurrence of a key in a JSON object's field list,
as serde's map access does for a derived struct. -/
def lookupField : List (String × Json) → String → Option Json
  | [], _ => none
  | (k, v) :: rest, key => if k == key then some v else lookupField rest key

/-- Decode a JSON value as a Rust `String`. -/
def decodeString : Json → Option String
  | .str s => some s
  | _ => none

/-- Decode a JSON value as a Rust `bool`. -/
def decodeBool : Json → Option Bool
  | .bool b => some b
  | _ => none

/-- Decode a JSON value as an unsigned integer of `bits` bits
(`u8`, `u16`, `u32`, `u64`), as serde_json does for integer targets. -/
def decodeUInt (bits : Nat) : Json → Option Nat
  | .num n => if 0 ≤ n ∧ n < 2 ^ bits then some n.toNat else none
  | _ => none

/-- Decode a JSON value as a signed integer of `bits` bits (`i32`). -/
def decodeInt (bits : Nat) : Json → Option Int
  | .num n => if -(2 ^ (bits - 1)) ≤ n ∧ n < 2 ^ (bits - 1) then some n else none
  | _ => none

/-- A required struct field: missing key or failed value decode is a failure. -/
def reqField (kvs : List (String × Json)) (key : String) (dec : Json → Option α) : Option α :=
  (lookupField kvs key).bind dec

/-- An `Option`-typed struct field: a missing key or an explicit `null`
yields `none`; a present non-null value must decode. -/
def optField (kvs : List (String × Json)) (key : String) (dec : Json → Option α) :
    Option (Option α) :=
  match lookupField kvs key with
  | none => some none
  | some .null => some none
  | some v => (dec v).map some

/-- Decode a JSON array elementwise (serde `Vec<T>`). -/
def decodeList (dec : Json → Option α) : Json → Option (List α)
  | .arr xs => xs.mapM dec
  | _ => none

/-! ## `ProtocolInfo` (models.rs lines 5-14) -/

/-- `ProtocolInfo`: protocol-level financial aggregates, all required strings. -/
structure ProtocolInfo where
  fees_24h_usdc : String
  revenue_24h_usdc : String
  tvl : String
  volume_24h_usdc : String
deriving Repr, DecidableEq

/-- Derived deserializer for `ProtocolInfo` with its serde renames. -/
def decodeProtocolInfo : Json → Option ProtocolInfo
  | .obj kvs => do
    let fees ← reqField kvs "fees24hUsdc" decodeString
    let revenue ← reqField kvs "revenue24hUsdc" decodeString
    let tvl ← reqField kvs "tvl" decodeString
    let volume ← reqField kvs "volume24hUsdc" decodeString
    some ⟨fees, revenue, tvl, volume⟩
  | _ => none

/-! ## Pagination envelope (models.rs lines 57-69) -/

/-- `Meta`: pagination cursors, both optional. -/
structure Meta where
  next : Option String
  previous : Option String
deriving Repr, DecidableEq

/-- Derived deserializer for `Meta`. -/
def decodeMeta : Json → Option Meta
  | .obj kvs => do
    let next ← optField kvs "next" decodeString
    let previous ← optField kvs "previous" decodeString
    some ⟨next, previous⟩
  | _ => none

/-- `Paginated<T>`: the list-endpoint envelope. -/
structure Paginated (α : Type) where
  data : List α
  meta : Meta
deriving Repr, DecidableEq

/-- Derived deserializer for `Paginated<T>` given an element deserializer. -/
def decodePaginated (dec : Json → Option α) : Json → Option (Paginated α)
  | .obj kvs => do
    let data ← reqField kvs "data" (decodeList dec)
    let meta ← reqField kvs "meta" decodeMeta
    some ⟨data, meta⟩
  | _ => none

/-! ## `Token` (models.rs lines 72-95) -/

/-- `Token`: an on-chain token record; `freeze_authority` and
`mint_authority` are the only `Option`-typed fields, and `extensions`,
`metadata`, `stats`, `tags` are captured as raw JSON text (strings). -/
structure Token where
  address : String
  decimals : Nat
  extensions : String
  freeze_authority : Option String
  is_initialized : Bool
  metadata : String
  mint_authority : Option String
  price_usdc : String
  stats : String
  supply : String
  tags : String
  token_program : String
  updated_at : String
  updated_epoch : Nat
deriving Repr, DecidableEq

/-- Fields 1-8 of the derived `Token` deserializer (`address` through
`priceUsdc`), split out to keep elaboration tractable. -/
def decodeTokenA (kvs : List (String × Json)) :
    Option (String × Nat × String × Option String × Bool × String ×
            Option String × String) := do
  let address ← reqField kvs "address" decodeString
  let decimals ← reqField kvs "decimals" (decodeUInt 8)
  let extensions ← reqField kvs "extensions" decodeString
  let freeze_authority ← optField kvs "freezeAuthority" decodeString
  let is_initialized ← reqField kvs "isInitialized" decodeBool
  let metadata ← reqField kvs "metadata" decodeString
  let mint_authority ← optField kvs "mintAuthority" decodeString
  let price_usdc ← reqField kvs "priceUsdc" decodeString
  some (address, decimals, extensions, freeze_authority, is_initialized, metadata,
        mint_authority, price_usdc)

/-- Fields 9-14 of the derived `Token` deserializer (`stats` through
`updatedEpoch`). -/
def decodeTokenB (kvs : List (String × Json)) :
    Option (String × String × String × String × String × Nat) := do
  let stats ← reqField kvs "stats" decodeString
  let supply ← reqField kvs "supply" decodeString
  let tags ← reqField kvs "tags" decodeString
  let token_program ← reqField kvs "tokenProgram" decodeString
  let updated_at ← reqField kvs "updatedAt" decodeString
  let updated_epoch ← reqField kvs "updatedEpoch" (decodeUInt 64)
  some (stats, supply, tags, token_program, updated_at, updated_epoch)

/-- Derived deserializer for `Token` with its serde renames. -/
def decodeToken : Json → Option Token
  | .obj kvs =>
    (decodeTokenA kvs).bind fun a =>
    (decodeTokenB kvs).map fun b =>
    { address := a.1
      decimals := a.2.1
      extensions := a.2.2.1
      freeze_authority := a.2.2.2.1
      is_initialized := a.2.2.2.2.1
      metadata := a.2.2.2.2.2.1
      mint_authority := a.2.2.2.2.2.2.1
      price_usdc := a.2.2.2.2.2.2.2
      stats := b.1
      supply := b.2.1
      tags := b.2.2.1
      token_program := b.2.2.2.1
      updated_at := b.2.2.2.2.1
      updated_epoch := b.2.2.2.2.2 }
  | _ => none

/-! ## `LockInfo` (models.rs lines 98-103) -/

/-- `LockInfo`: a locked-liquidity record. -/
structure LockInfo where
  locked_percentage : String
  name : String
deriving Repr, DecidableEq

/-- Derived deserializer for `LockInfo`. -/
def decodeLockInfo : Json → Option LockInfo
  | .obj kvs => do
    let locked_percentage ← reqField kvs "lockedPercentage" decodeString
    let name ← reqField kvs "name" decodeString
    some ⟨locked_percentage, name⟩
  | _ => none

/-! ## `TimePeriod` (models.rs lines 106-127) -/

/-- `TimePeriod`: the closed enumeration of statistics windows. -/
inductive TimePeriod where
  | M5 | M15 | M30 | H1 | H2 | H4 | H8 | H12 | H24
deriving Repr, DecidableEq

/-- The serde wire string of each `TimePeriod` variant (its `rename`). -/
def TimePeriod.wireString : TimePeriod → String
  | .M5 => "5m"
  | .M15 => "15m"
  | .M30 => "30m"
  | .H1 => "1h"
  | .H2 => "2h"
  | .H4 => "4h"
  | .H8 => "8h"
  | .H12 => "12h"
  | .H24 => "24h"

/-- The Rust variant name of each `TimePeriod` variant (what the wire
form would be without the `rename` attributes). -/
def TimePeriod.variantName : TimePeriod → String
  | .M5 => "M5"
  | .M15 => "M15"
  | .M30 => "M30"
  | .H1 => "H1"
  | .H2 => "H2"
  | .H4 => "H4"
  | .H8 => "H8"
  | .H12 => "H12"
  | .H24 => "H24"

/-- Deserializer for `TimePeriod`: only the nine wire strings are
accepted; any other string is an unknown-variant failure. -/
def TimePeriod.fromWireString (s : String) : Option TimePeriod :=
  if s == "5m" then some .M5
  else if s == "15m" then some .M15
  else if s == "30m" then some .M30
  else if s == "1h" then some .H1
  else if s == "2h" then some .H2
  else if s == "4h" then some .H4
  else if s == "8h" then some .H8
  else if s == "12h" then some .H12
  else if s == "24h" then some .H24
  else none

/-- Deserializer for a `TimePeriod` used as a JSON map key (serde
deserializes map keys from their string form). -/
def decodeTimePeriodKey (s : String) : Option TimePeriod :=
  TimePeriod.fromWireString s

/-! ## `PoolStats` (models.rs lines 266-273) -/

/-- `PoolStats`: per-period pool statistics, all required strings. -/
structure PoolStats where
  fees : String
  rewards : String
  volume : String
  yield_over_tvl : String
deriving Repr, DecidableEq

/-- Derived deserializer for `PoolStats`. -/
def decodePoolStats : Json → Option PoolStats
  | .obj kvs => do
    let fees ← reqField kvs "fees" decodeString
    let rewards ← reqField kvs "rewards" decodeString
    let volume ← reqField kvs "volume" decodeString
    let yield_over_tvl ← reqField kvs "yieldOverTvl" decodeString
    some ⟨fees, rewards, volume, yield_over_tvl⟩
  | _ => none

/-- One entry of the `stats` map: the key through the `TimePeriod`
deserializer, the value through the `PoolStats` deserializer. -/
def decodeStatsEntry (kv : String × Json) : Option (TimePeriod × PoolStats) := do
  let tp ← decodeTimePeriodKey kv.1
  let ps ← decodePoolStats kv.2
  some (tp, ps)

/-- Decode the entries of a stats object in order, failing if any entry
fails. -/
def decodeStatsList : List (String × Json) → Option (List (TimePeriod × PoolStats))
  | [] => some []
  | kv :: rest => do
    let e ← decodeStatsEntry kv
    let m ← decodeStatsList rest
    some (e :: m)

/-- Deserializer for `HashMap<TimePeriod, PoolStats>` (`Whirlpool.stats`):
each entry's key goes through the `TimePeriod` deserializer and each value
through the `PoolStats` deserializer; the map is modelled by the list of
decoded entries. -/
def decodeStats : Json → Option (List (TimePeriod × PoolStats))
  | .obj kvs => decodeStatsList kvs
  | _ => none

/-! ## `SimpleTokenInfo` (models.rs lines 276-287) -/

/-- `SimpleTokenInfo`: the compact token descriptor embedded in a pool.
All seven fields, `image_url` included, are required. -/
structure SimpleTokenInfo where
  address : String
  decimals : Nat
  image_url : String
  name : String
  program_id : String
  symbol : String
  tags : String
deriving Repr, DecidableEq

/-- Derived deserializer for `SimpleTokenInfo` with its serde renames. -/
def decodeSimpleTokenInfo : Json → Option SimpleTokenInfo
  | .obj kvs => do
    let address ← reqField kvs "address" decodeString
    let decimals ← reqField kvs "decimals" (decodeUInt 8)
    let image_url ← reqField kvs "imageUrl" decodeString
    let name ← reqField kvs "name" decodeString
    let program_id ← reqField kvs "programId" decodeString
    let symbol ← reqField kvs "symbol" decodeString
    let tags ← reqField kvs "tags" decodeString
    some ⟨address, decimals, image_url, name, program_id, symbol, tags⟩
  | _ => none

/-! ## Adaptive-fee records and `Reward` (models.rs lines 208-263) -/

/-- `AdaptiveFeeConstants`: adaptive-fee-curve configuration. -/
structure AdaptiveFeeConstants where
  adaptive_fee_control_factor : Nat
  decay_period : Nat
  filter_period : Nat
  major_swap_threshold_ticks : Nat
  max_volatility_accumulator : Nat
  reduction_factor : Nat
  tick_group_size : Nat
deriving Repr, DecidableEq

/-- Derived deserializer for `AdaptiveFeeConstants`. -/
def decodeAdaptiveFeeConstants : Json → Option AdaptiveFeeConstants
  | .obj kvs => do
    let a ← reqField kvs "adaptiveFeeControlFactor" (decodeUInt 32)
    let d ← reqField kvs "decayPeriod" (decodeUInt 32)
    let f ← reqField kvs "filterPeriod" (decodeUInt 32)
    let m ← reqField kvs "majorSwapThresholdTicks" (decodeUInt 32)
    let mv ← reqField kvs "maxVolatilityAccumulator" (decodeUInt 32)
    let r ← reqField kvs "reductionFactor" (decodeUInt 32)
    let t ← reqField kvs "tickGroupSize" (decodeUInt 32)
    some ⟨a, d, f, m, mv, r, t⟩
  | _ => none

/-- `AdaptiveFeeVariables`: adaptive-fee live state. -/
structure AdaptiveFeeVariables where
  last_major_swap_timestamp : String
  last_reference_update_timestamp : String
  tick_group_index_reference : Int
  volatility_accumulator : Nat
  volatility_reference : Nat
deriving Repr, DecidableEq

/-- Derived deserializer for `AdaptiveFeeVariables`. -/
def decodeAdaptiveFeeVariables : Json → Option AdaptiveFeeVariables
  | .obj kvs => do
    let lm ← reqField kvs "lastMajorSwapTimestamp" decodeString
    let lr ← reqField kvs "lastReferenceUpdateTimestamp" decodeString
    let tg ← reqField kvs "tickGroupIndexReference" (decodeInt 32)
    let va ← reqField kvs "volatilityAccumulator" (decodeUInt 32)
    let vr ← reqField kvs "volatilityReference" (decodeUInt 32)
    some ⟨lm, lr, tg, va, vr⟩
  | _ => none

/-- `AdaptiveFee`: constants, variables and current/max rates. The Rust
field `variables` is named `vars` here because `variables` is reserved
in Lean. -/
structure AdaptiveFee where
  constants : AdaptiveFeeConstants
  current_rate : Nat
  max_rate : Nat
  vars : AdaptiveFeeVariables
deriving Repr, DecidableEq

/-- Derived deserializer for `AdaptiveFee`. -/
def decodeAdaptiveFee : Json → Option AdaptiveFee
  | .obj kvs => do
    let c ← reqField kvs "constants" decodeAdaptiveFeeConstants
    let cr ← reqField kvs "currentRate" (decodeUInt 32)
    let mr ← reqField kvs "maxRate" (decodeUInt 32)
    let v ← reqField kvs "variables" decodeAdaptiveFeeVariables
    some ⟨c, cr, mr, v⟩
  | _ => none

/-- `Reward`: a reward-emission stream on a pool. -/
structure Reward where
  authority : String
  emissions_per_second_x64 : String
  growth_global_x64 : String
  mint : String
  vault : String
  active : Bool
  emissions_per_second : String
deriving Repr, DecidableEq

/-- Derived deserializer for `Reward`; only `emissionsPerSecond` is
renamed, the other fields use their Rust names as wire keys. -/
def decodeReward : Json → Option Reward
  | .obj kvs => do
    let authority ← reqField kvs "authority" decodeString
    let ex ← reqField kvs "emissions_per_second_x64" decodeString
    let gg ← reqField kvs "growth_global_x64" decodeString
    let mint ← reqField kvs "mint" decodeString
    let vault ← reqField kvs "vault" decodeString
    let active ← reqField kvs "active" decodeBool
    let eps ← reqField kvs "emissionsPerSecond" decodeString
    some ⟨authority, ex, gg, mint, vault, active, eps⟩
  | _ => none

/-! ## `Whirlpool` (models.rs lines 130-205) -/

/-- `Whirlpool`: a liquidity pool. Note the field types taken verbatim
from the source: `token_vault_a` is `Vec<u64>` while `token_vault_b` is
`String`, and `address_lookup_table` is `Vec<u64>`. -/
structure Whirlpool where
  address : String
  fee_growth_global_a : String
  fee_growth_global_b : String
  fee_rate : Nat
  liquidity : String
  protocol_fee_owed_a : String
  protocol_fee_owed_b : String
  protocol_fee_rate : Nat
  reward_last_updated_timestamp : String
  sqrt_price : String
  tick_current_index : Int
  tick_spacing : Nat
  tick_spacing_seed : String
  token_mint_a : String
  token_mint_b : String
  token_vault_a : List Nat
  token_vault_b : String
  updated_at : String
  updated_slot : Nat
  whirlpool_bump : String
  whirlpools_config : String
  write_version : String
  adaptive_fee : Option AdaptiveFee
  adaptive_fee_enabled : Bool
  address_lookup_table : List Nat
  fee_tier_index : Nat
  has_warning : Bool
  locked_liquidity_percent : Option (List LockInfo)
  pool_type : String
  price : String
  rewards : List Reward
  stats : List (TimePeriod × PoolStats)
  token_a : SimpleTokenInfo
  token_b : SimpleTokenInfo
  token_balance_a : String
  token_balance_b : String
  trade_enable_timestamp : String
  tvl_usdc : String
  yield_over_tvl : String
deriving Repr, DecidableEq

/-- Fields 1-10 of the derived `Whirlpool` deserializer (`address`
through `sqrtPrice`), split out to keep elaboration tractable. -/
def decodeWhirlpoolA (kvs : List (String × Json)) :
    Option (String × String × String × Nat × String × String × String × Nat ×
            String × String) := do
  let address ← reqField kvs "address" decodeString
  let fga ← reqField kvs "feeGrowthGlobalA" decodeString
  let fgb ← reqField kvs "feeGrowthGlobalB" decodeString
  let fee_rate ← reqField kvs "feeRate" (decodeUInt 32)
  let liquidity ← reqField kvs "liquidity" decodeString
  let pfoa ← reqField kvs "protocolFeeOwedA" decodeString
  let pfob ← reqField kvs "protocolFeeOwedB" decodeString
  let pfr ← reqField kvs "protocolFeeRate" (decodeUInt 32)
  let rlut ← reqField kvs "rewardLastUpdatedTimestamp" decodeString
  let sqrt_price ← reqField kvs "sqrtPrice" decodeString
  some (address, fga, fgb, fee_rate, liquidity, pfoa, pfob, pfr, rlut, sqrt_price)

/-- Fields 11-20 of the derived `Whirlpool` deserializer
(`tickCurrentIndex` through `whirlpoolBump`). -/
def decodeWhirlpoolB (kvs : List (String × Json)) :
    Option (Int × Nat × String × String × String × List Nat × String × String ×
            Nat × String) := do
  let tci ← reqField kvs "tickCurrentIndex" (decodeInt 32)
  let tick_spacing ← reqField kvs "tickSpacing" (decodeUInt 16)
  let tss ← reqField kvs "tickSpacingSeed" decodeString
  let tma ← reqField kvs "tokenMintA" decodeString
  let tmb ← reqField kvs "tokenMintB" decodeString
  let tva ← reqField kvs "tokenVaultA" (decodeList (decodeUInt 64))
  let tvb ← reqField kvs "tokenVaultB" decodeString
  let updated_at ← reqField kvs "updatedAt" decodeString
  let updated_slot ← reqField kvs "updatedSlot" (decodeUInt 64)
  let wb ← reqField kvs "whirlpoolBump" decodeString
  some (tci, tick_spacing, tss, tma, tmb, tva, tvb, updated_at, updated_slot, wb)

/-- Fields 21-30 of the derived `Whirlpool` deserializer
(`whirlpoolsConfig` through `price`). -/
def decodeWhirlpoolC (kvs : List (String × Json)) :
    Option (String × String × Option AdaptiveFee × Bool × List Nat × Nat × Bool ×
            Option (List LockInfo) × String × String) := do
  let wc ← reqField kvs "whirlpoolsConfig" decodeString
  let wv ← reqField kvs "writeVersion" decodeString
  let adaptive_fee ← optField kvs "adaptiveFee" decodeAdaptiveFee
  let afe ← reqField kvs "adaptiveFeeEnabled" decodeBool
  let alt ← reqField kvs "addressLookupTable" (decodeList (decodeUInt 64))
  let fti ← reqField kvs "feeTierIndex" (decodeUInt 32)
  let has_warning ← reqField kvs "hasWarning" decodeBool
  let llp ← optField kvs "lockedLiquidityPercent" (decodeList decodeLockInfo)
  let pool_type ← reqField kvs "poolType" decodeString
  let price ← reqField kvs "price" decodeString
  some (wc, wv, adaptive_fee, afe, alt, fti, has_warning, llp, pool_type, price)

/-- Fields 31-39 of the derived `Whirlpool` deserializer
(`rewards` through `yieldOverTvl`). -/
def decodeWhirlpoolD (kvs : List (String × Json)) :
    Option (List Reward × List (TimePeriod × PoolStats) × SimpleTokenInfo ×
            SimpleTokenInfo × String × String × String × String × String) := do
  let rewards ← reqField kvs "rewards" (decodeList decodeReward)
  let stats ← reqField kvs "stats" decodeStats
  let token_a ← reqField kvs "tokenA" decodeSimpleTokenInfo
  let token_b ← reqField kvs "tokenB" decodeSimpleTokenInfo
  let tba ← reqField kvs "tokenBalanceA" decodeString
  let tbb ← reqField kvs "tokenBalanceB" decodeString
  let tet ← reqField kvs "tradeEnableTimestamp" decodeString
  let tvl_usdc ← reqField kvs "tvlUsdc" decodeString
  let yot ← reqField kvs "yieldOverTvl" decodeString
  some (rewards, stats, token_a, token_b, tba, tbb, tet, tvl_usdc, yot)

/-- Derived deserializer for `Whirlpool` with its serde renames: every
field is looked up by its wire key; the whole record decodes or the whole
decode fails. The four field groups are combined with explicit binds and
tuple projections. -/
def decodeWhirlpool : Json → Option Whirlpool
  | .obj kvs =>
    (decodeWhirlpoolA kvs).bind fun a =>
    (decodeWhirlpoolB kvs).bind fun b =>
    (decodeWhirlpoolC kvs).bind fun c =>
    (decodeWhirlpoolD kvs).map fun d =>
    { address := a.1
      fee_growth_global_a := a.2.1
      fee_growth_global_b := a.2.2.1
      fee_rate := a.2.2.2.1
      liquidity := a.2.2.2.2.1
      protocol_fee_owed_a := a.2.2.2.2.2.1
      protocol_fee_owed_b := a.2.2.2.2.2.2.1
      protocol_fee_rate := a.2.2.2.2.2.2.2.1
      reward_last_updated_timestamp := a.2.2.2.2.2.2.2.2.1
      sqrt_price := a.2.2.2.2.2.2.2.2.2
      tick_current_index := b.1
      tick_spacing := b.2.1
      tick_spacing_seed := b.2.2.1
      token_mint_a := b.2.2.2.1
      token_mint_b := b.2.2.2.2.1
      token_vault_a := b.2.2.2.2.2.1
      token_vault_b := b.2.2.2.2.2.2.1
      updated_at := b.2.2.2.2.2.2.2.1
      updated_slot := b.2.2.2.2.2.2.2.2.1
      whirlpool_bump := b.2.2.2.2.2.2.2.2.2
      whirlpools_config := c.1
      write_version := c.2.1
      adaptive_fee := c.2.2.1
      adaptive_fee_enabled := c.2.2.2.1
      address_lookup_table := c.2.2.2.2.1
      fee_tier_index := c.2.2.2.2.2.1
      has_warning := c.2.2.2.2.2.2.1
      locked_liquidity_percent := c.2.2.2.2.2.2.2.1
      pool_type := c.2.2.2.2.2.2.2.2.1
      price := c.2.2.2.2.2.2.2.2.2
      rewards := d.1
      stats := d.2.1
      token_a := d.2.2.1
      token_b := d.2.2.2.1
      token_balance_a := d.2.2.2.2.1
      token_balance_b := d.2.2.2.2.2.1
      trade_enable_timestamp := d.2.2.2.2.2.2.1
      tvl_usdc := d.2.2.2.2.2.2.2.1
      yield_over_tvl := d.2.2.2.2.2.2.2.2 }
  | _ => none

/-! ## Request building (client.rs)

A query string is modelled as the ordered list of key/value pairs appended
through the url crate's `query_pairs_mut` serializer; percent-encoding of
keys and values is that serializer's concern and is not modelled. -/

/-- A Rust `f64` value, modelled by the decimal string its `to_string`
(the standard library's `Display` shortest-round-trip rendering, an
external collaborator) produces for it. -/
structure RustF64 where
  display : String
deriving Repr, DecidableEq

/-- Rust `bool::to_string`: the literal strings `true` / `false`. -/
def boolString (b : Bool) : String :=
  if b then "true" else "false"

/-- `serde_json::to_string` on a `TimePeriod` followed by stripping the
quotes (`.replace` of the quote character), as `get_pools`/`search_pools`
render a `stats` element: this is exactly the serde wire string. -/
def timePeriodQueryValue (t : TimePeriod) : String :=
  TimePeriod.wireString t

/-- One optional scalar filter: an `if let Some(v) = o` block appending a
single pair rendered through `f`, nothing when the filter is `None`. -/
def optPair (k : String) (f : α → String) : Option α → List (String × String)
  | some v => [(k, f v)]
  | none => []

/-- One optional array filter: a `for` loop appending one pair per
element under the same key, in element order; nothing when `None`. -/
def repPairs (k : String) (f : α → String) : Option (List α) → List (String × String)
  | some vs => vs.map (fun v => (k, f v))
  | none => []

/-- `GetPoolsParams` (client.rs lines 17-36); every field defaults to
`None`, modelling `#[derive(Default)]`. -/
structure GetPoolsParams where
  sort_by : Option String := none
  sort_direction : Option String := none
  next : Option String := none
  previous : Option String := none
  has_rewards : Option Bool := none
  has_warning : Option Bool := none
  has_adaptive_fee : Option Bool := none
  is_wavebreak : Option Bool := none
  min_tvl : Option RustF64 := none
  min_volume : Option RustF64 := none
  min_locked_liquidity_percent : Option RustF64 := none
  size : Option Nat := none
  token : Option (List Nat) := none
  tokens_both_of : Option (List String) := none
  addresses : Option (List String) := none
  stats : Option (List TimePeriod) := none
  include_blocked : Option Bool := none
deriving Repr, DecidableEq

/-- `GetPoolsParams::default()`. -/
def GetPoolsParams.default : GetPoolsParams := {}

/-- The ordered query pairs `get_pools` appends (client.rs lines
196-262), one block per filter in source order. -/
def getPoolsQuery (p : GetPoolsParams) : List (String × String) :=
  optPair "sortBy" id p.sort_by ++
  optPair "sortDirection" id p.sort_direction ++
  optPair "next" id p.next ++
  optPair "previous" id p.previous ++
  optPair "hasRewards" boolString p.has_rewards ++
  optPair "hasWarning" boolString p.has_warning ++
  optPair "hasAdaptiveFee" boolString p.has_adaptive_fee ++
  optPair "isWavebreak" boolString p.is_wavebreak ++
  optPair "minTvl" RustF64.display p.min_tvl ++
  optPair "minVolume" RustF64.display p.min_volume ++
  optPair "minLockedLiquidityPercent" RustF64.display p.min_locked_liquidity_percent ++
  optPair "size" Nat.repr p.size ++
  repPairs "token" Nat.repr p.token ++
  repPairs "tokensBothOf" id p.tokens_both_of ++
  repPairs "addresses" id p.addresses ++
  repPairs "stats" timePeriodQueryValue p.stats ++
  optPair "includeBlocked" boolString p.include_blocked

/-- `SearchPoolsParams` (client.rs lines 40-53); `q` is mandatory (a
plain `&str`, defaulting to the empty string under `Default`), every
other field defaults to `None`. -/
structure SearchPoolsParams where
  q : String := ""
  next : Option String := none
  size : Option Nat := none
  sort_by : Option String := none
  sort_direction : Option String := none
  min_tvl : Option RustF64 := none
  min_volume : Option RustF64 := none
  stats : Option (List TimePeriod) := none
  user_tokens : Option (List String) := none
  has_rewards : Option Bool := none
  verified_only : Option Bool := none
  has_locked_liquidity : Option Bool := none
deriving Repr, DecidableEq

/-- The ordered query pairs `search_pools` appends (client.rs lines
280-323): `q` unconditionally first, then the optional filters in source
order. -/
def searchPoolsQuery (p : SearchPoolsParams) : List (String × String) :=
  [("q", p.q)] ++
  optPair "next" id p.next ++
  optPair "size" Nat.repr p.size ++
  optPair "sortBy" id p.sort_by ++
  optPair "sortDirection" id p.sort_direction ++
  optPair "minTvl" RustF64.display p.min_tvl ++
  optPair "minVolume" RustF64.display p.min_volume ++
  repPairs "stats" timePeriodQueryValue p.stats ++
  repPairs "userTokens" id p.user_tokens ++
  optPair "hasRewards" boolString p.has_rewards ++
  optPair "verifiedOnly" boolString p.verified_only ++
  optPair "hasLockedLiquidity" boolString p.has_locked_liquidity

/-- The ordered query pairs `get_tokens` appends (client.rs lines
123-142): the six optional parameters in source order; note the
snake_case wire keys for the two sort parameters. -/
def getTokensQuery (next previous : Option String) (size : Option Nat)
    (sort_by sort_direction tokens : Option String) : List (String × String) :=
  optPair "next" id next ++
  optPair "previous" id previous ++
  optPair "size" Nat.repr size ++
  optPair "sort_by" id sort_by ++
  optPair "sort_direction" id sort_direction ++
  optPair "tokens" id tokens

/-! ## Client construction and URL parsing (client.rs lines 8-70, 121, 193) -/

/-- The default base URL (`BASE_URL`). -/
def BASE_URL : String := "https://api.orca.so/v2"

/-- `OrcaClient`: holds only the base URL (the reqwest `Client` is the
external transport collaborator). -/
structure OrcaClient where
  base_url : String
deriving Repr, DecidableEq

/-- `OrcaClient::new`: the default base URL. Infallible. -/
def OrcaClient.new : OrcaClient :=
  ⟨BASE_URL⟩

/-- `OrcaClient::with_base_url`: stores the given string verbatim.
Infallible — no validation of any kind happens at construction time. -/
def OrcaClient.with_base_url (base_url : String) : OrcaClient :=
  ⟨base_url⟩

/-- Whether a scheme component is syntactically valid: nonempty, starts
with an ASCII letter, continues with letters, digits, `+`, `-` or `.`. -/
def schemeOk : List Char → Bool
  | [] => false
  | c :: cs => c.isAlpha && cs.all (fun d => d.isAlphanum || d == '+' || d == '-' || d == '.')

/-- Split a character list at the first `://`, returning the scheme part
and the remainder; fails when the first `:` is not followed by `//` or
when there is no `:` at all. -/
def splitScheme : List Char → Option (List Char × List Char)
  | [] => none
  | ':' :: '/' :: '/' :: tail => some ([], tail)
  | ':' :: _ => none
  | c :: rest => (splitScheme rest).map (fun pr => (c :: pr.1, pr.2))

/-- Simplified model of the external url crate's `Url::parse`, covering
what this client exercises: an absolute URL of the form
`scheme://nonempty-rest` parses; a string without a scheme and authority
(such as a bare word) is rejected. -/
def urlParseOk (s : String) : Bool :=
  match splitScheme s.data with
  | some (scheme, rest) => schemeOk scheme && !rest.isEmpty
  | none => false

/-- The errors a call can surface: a URL parse failure at request-build
time, a transport failure, or a body-decode failure. (The Rust signature
is the type-erased `Box<dyn Error>`; these are the three sources that
can flow into it.) -/
inductive ClientError where
  | urlParse
  | transport
  | decode
deriving Repr, DecidableEq

/-- The request-building step of `get_tokens` (client.rs line 121):
`Url::parse` over base URL + path, propagated with `?` — so an invalid
base URL surfaces as a per-call error here, not at construction. On
success, the full query-pair list is attached. -/
def getTokensRequest (c : OrcaClient) (chain : String) (next previous : Option String)
    (size : Option Nat) (sort_by sort_direction tokens : Option String) :
    Except ClientError (String × List (String × String)) :=
  let urlString := c.base_url ++ "/" ++ chain ++ "/tokens"
  if urlParseOk urlString then
    .ok (urlString, getTokensQuery next previous size sort_by sort_direction tokens)
  else
    .error .urlParse

/-- The request-building step of `get_pools` (client.rs line 193). -/
def getPoolsRequest (c : OrcaClient) (chain : String) (p : GetPoolsParams) :
    Except ClientError (String × List (String × String)) :=
  let urlString := c.base_url ++ "/" ++ chain ++ "/pools"
  if urlParseOk urlString then
    .ok (urlString, getPoolsQuery p)
  else
    .error .urlParse

/-! ## Response handling (client.rs `send` + `json` at every endpoint)

`send()` fails only on transport failure; it does not inspect the HTTP
status code (there is no `error_for_status` call anywhere in the crate).
`response.json::<T>()` deserializes the body regardless of the status.
A response is modelled by its status code and its body, the latter
`none` when the body is not valid JSON at all. -/

/-- An HTTP response as the handler sees it: status code and body
(`none` models a body that is not valid JSON). -/
structure HttpResponse where
  status : Nat
  body : Option Json
deriving Repr

/-- `response.json::<T>().await?`: decode the body, never consulting the
status code — exactly what every endpoint of the crate does with a
received response. -/
def responseJson (dec : Json → Option α) (r : HttpResponse) : Except ClientError α :=
  match r.body with
  | none => .error .decode
  | some j =>
    match dec j with
    | none => .error .decode
    | some v => .ok v

/-- Response handling of `get_protocol_info` (client.rs lines 73-78). -/
def getProtocolInfoResult (r : HttpResponse) : Except ClientError ProtocolInfo :=
  responseJson decodeProtocolInfo r

/-- Response handling of `get_pools` (client.rs lines 266-269). -/
def getPoolsResult (r : HttpResponse) : Except ClientError (Paginated Whirlpool) :=
  responseJson (decodePaginated decodeWhirlpool) r

/-! ## Helper lemmas about query-pair lists -/

/-- The keys of a query-pair list, in emission order. -/
def queryKeys (q : List (String × String)) : List String :=
  q.map Prod.fst

/-- The pairs of a query-pair list carrying a given key, in emission
order. -/
def filterKey (q : List (String × String)) (k : String) : List (String × String) :=
  q.filter (fun kv => kv.1 == k)

theorem queryKeys_append (a b : List (String × String)) :
    queryKeys (a ++ b) = queryKeys a ++ queryKeys b :=
  List.map_append _ a b

theorem filterKey_append (a b : List (String × String)) (k : String) :
    filterKey (a ++ b) k = filterKey a k ++ filterKey b k :=
  List.filter_append _ _

theorem mem_queryKeys_optPair {k k' : String} {f : α → String} {o : Option α} :
    k ∈ queryKeys (optPair k' f o) ↔ k = k' ∧ o.isSome := by
  cases o <;> simp [optPair, queryKeys]

theorem mem_queryKeys_singleton {k k2 v : String} : k ∈ queryKeys [(k2, v)] ↔ k = k2 := by
  simp [queryKeys]

theorem mem_queryKeys_repPairs {k k' : String} {f : α → String} {o : Option (List α)} :
    k ∈ queryKeys (repPairs k' f o) ↔ k = k' ∧ ∃ vs, o = some vs ∧ vs ≠ [] := by
  cases o with
  | none => simp [repPairs, queryKeys]
  | some vs =>
    simp only [repPairs, queryKeys, List.map_map, Option.some.injEq]
    constructor
    · intro h
      obtain ⟨x, hx, hk⟩ := List.mem_map.mp h
      exact ⟨hk.symm, vs, rfl, List.ne_nil_of_mem hx⟩
    · rintro ⟨rfl, vs2, rfl, hne⟩
      obtain ⟨x, hx⟩ := List.exists_mem_of_ne_nil _ hne
      exact List.mem_map.mpr ⟨x, hx, rfl⟩

theorem filterKey_optPair (k k' : String) (f : α → String) (o : Option α) :
    filterKey (optPair k' f o) k = if k' == k then optPair k' f o else [] := by
  cases o <;> cases h : k' == k <;> simp [optPair, filterKey, h]

theorem filterKey_repPairs (k k' : String) (f : α → String) (o : Option (List α)) :
    filterKey (repPairs k' f o) k = if k' == k then repPairs k' f o else [] := by
  cases o with
  | none => cases h : k' == k <;> simp [repPairs, filterKey, h]
  | some vs =>
    induction vs with
    | nil => cases h : k' == k <;> simp [repPairs, filterKey, h]
    | cons v rest ih =>
      cases h : k' == k <;>
        simp_all [repPairs, filterKey, List.filter_cons, h]

/-! ## Claim theorems -/

/-- C4: a `get_pools` call with every filter present emits exactly the
fixed key order sortBy, sortDirection, next, previous, hasRewards,
hasWarning, hasAdaptiveFee, isWavebreak, minTvl, minVolume,
minLockedLiquidityPercent, size, token (repeated), tokensBothOf
(repeated), addresses (repeated), stats (repeated), includeBlocked, with
booleans rendered as the literal strings `true` / `false` and numbers via
their default decimal conversion. -/
theorem getPools_query_fixed_order (sb sd nx pv : String) (b1 b2 b3 b4 : Bool)
    (m1 m2 m3 : RustF64) (sz : Nat) (toks : List Nat) (tbo ads : List String)
    (sts : List TimePeriod) (ib : Bool) :
    getPoolsQuery
      { sort_by := some sb, sort_direction := some sd, next := some nx,
        previous := some pv, has_rewards := some b1, has_warning := some b2,
        has_adaptive_fee := some b3, is_wavebreak := some b4, min_tvl := some m1,
        min_volume := some m2, min_locked_liquidity_percent := some m3,
        size := some sz, token := some toks, tokens_both_of := some tbo,
        addresses := some ads, stats := some sts, include_blocked := some ib } =
      [("sortBy", sb), ("sortDirection", sd), ("next", nx), ("previous", pv),
       ("hasRewards", boolString b1), ("hasWarning", boolString b2),
       ("hasAdaptiveFee", boolString b3), ("isWavebreak", boolString b4),
       ("minTvl", m1.display), ("minVolume", m2.display),
       ("minLockedLiquidityPercent", m3.display), ("size", Nat.repr sz)] ++
      toks.map (fun t => ("token", Nat.repr t)) ++
      tbo.map (fun t => ("tokensBothOf", t)) ++
      ads.map (fun a => ("addresses", a)) ++
      sts.map (fun s => ("stats", TimePeriod.wireString s)) ++
      [("includeBlocked", boolString ib)] ∧
    boolString true = "true" ∧ boolString false = "false" := by
  refine ⟨?_, rfl, rfl⟩
  simp [getPoolsQuery, optPair, repPairs, timePeriodQueryValue]

/-- C5: every `TimePeriod` variant's wire-encoded query value is its
documented lowercase literal, never the internal variant name, and
decoding the encoded literal (as done for map keys) round-trips to the
original variant; the `stats` filter of `get_pools` emits exactly these
wire strings. -/
theorem timePeriod_wire_round_trip :
    (∀ t : TimePeriod, TimePeriod.fromWireString (TimePeriod.wireString t) = some t) ∧
    (TimePeriod.wireString .M5 = "5m" ∧ TimePeriod.wireString .M15 = "15m" ∧
     TimePeriod.wireString .M30 = "30m" ∧ TimePeriod.wireString .H1 = "1h" ∧
     TimePeriod.wireString .H2 = "2h" ∧ TimePeriod.wireString .H4 = "4h" ∧
     TimePeriod.wireString .H8 = "8h" ∧ TimePeriod.wireString .H12 = "12h" ∧
     TimePeriod.wireString .H24 = "24h") ∧
    (∀ t : TimePeriod, TimePeriod.wireString t ≠ TimePeriod.variantName t) ∧
    (∀ sts : List TimePeriod,
      getPoolsQuery { GetPoolsParams.default with stats := some sts } =
        sts.map (fun s => ("stats", TimePeriod.wireString s))) := by
  refine ⟨fun t => by cases t <;> decide, by decide, fun t => by cases t <;> decide, ?_⟩
  intro sts
  simp [getPoolsQuery, GetPoolsParams.default, optPair, repPairs, timePeriodQueryValue]

/-- Which keys can appear in a `get_pools` query: each key appears iff
its filter is present (non-empty, for array filters). -/
theorem mem_queryKeys_getPools (p : GetPoolsParams) (k : String) :
    k ∈ queryKeys (getPoolsQuery p) ↔
      (k = "sortBy" ∧ p.sort_by.isSome) ∨
      (k = "sortDirection" ∧ p.sort_direction.isSome) ∨
      (k = "next" ∧ p.next.isSome) ∨
      (k = "previous" ∧ p.previous.isSome) ∨
      (k = "hasRewards" ∧ p.has_rewards.isSome) ∨
      (k = "hasWarning" ∧ p.has_warning.isSome) ∨
      (k = "hasAdaptiveFee" ∧ p.has_adaptive_fee.isSome) ∨
      (k = "isWavebreak" ∧ p.is_wavebreak.isSome) ∨
      (k = "minTvl" ∧ p.min_tvl.isSome) ∨
      (k = "minVolume" ∧ p.min_volume.isSome) ∨
      (k = "minLockedLiquidityPercent" ∧ p.min_locked_liquidity_percent.isSome) ∨
      (k = "size" ∧ p.size.isSome) ∨
      (k = "token" ∧ ∃ vs, p.token = some vs ∧ vs ≠ []) ∨
      (k = "tokensBothOf" ∧ ∃ vs, p.tokens_both_of = some vs ∧ vs ≠ []) ∨
      (k = "addresses" ∧ ∃ vs, p.addresses = some vs ∧ vs ≠ []) ∨
      (k = "stats" ∧ ∃ vs, p.stats = some vs ∧ vs ≠ []) ∨
      (k = "includeBlocked" ∧ p.include_blocked.isSome) := by
  simp only [getPoolsQuery, queryKeys_append, List.mem_append,
    mem_queryKeys_optPair, mem_queryKeys_repPairs, or_assoc]

/-- Which keys can appear in a `get_tokens` query. -/
theorem mem_queryKeys_getTokens (next previous : Option String) (size : Option Nat)
    (sort_by sort_direction tokens : Option String) (k : String) :
    k ∈ queryKeys (getTokensQuery next previous size sort_by sort_direction tokens) ↔
      (k = "next" ∧ next.isSome) ∨
      (k = "previous" ∧ previous.isSome) ∨
      (k = "size" ∧ size.isSome) ∨
      (k = "sort_by" ∧ sort_by.isSome) ∨
      (k = "sort_direction" ∧ sort_direction.isSome) ∨
      (k = "tokens" ∧ tokens.isSome) := by
  simp only [getTokensQuery, queryKeys_append, List.mem_append, mem_queryKeys_optPair,
    or_assoc]

/-- Which keys can appear in a `search_pools` query: `q` always, each
other key iff its filter is present. -/
theorem mem_queryKeys_searchPools (p : SearchPoolsParams) (k : String) :
    k ∈ queryKeys (searchPoolsQuery p) ↔
      k = "q" ∨
      (k = "next" ∧ p.next.isSome) ∨
      (k = "size" ∧ p.size.isSome) ∨
      (k = "sortBy" ∧ p.sort_by.isSome) ∨
      (k = "sortDirection" ∧ p.sort_direction.isSome) ∨
      (k = "minTvl" ∧ p.min_tvl.isSome) ∨
      (k = "minVolume" ∧ p.min_volume.isSome) ∨
      (k = "stats" ∧ ∃ vs, p.stats = some vs ∧ vs ≠ []) ∨
      (k = "userTokens" ∧ ∃ vs, p.user_tokens = some vs ∧ vs ≠ []) ∨
      (k = "hasRewards" ∧ p.has_rewards.isSome) ∨
      (k = "verifiedOnly" ∧ p.verified_only.isSome) ∨
      (k = "hasLockedLiquidity" ∧ p.has_locked_liquidity.isSome) := by
  simp only [searchPoolsQuery, queryKeys_append, List.mem_append,
    mem_queryKeys_optPair, mem_queryKeys_repPairs, mem_queryKeys_singleton, or_assoc]

/-- C2: an optional filter left `None` contributes no key at all to the
emitted query of `get_pools`, `get_tokens` or `search_pools`; with all
filters unset, `get_pools` and `get_tokens` emit no pairs at all and
`search_pools` emits only its mandatory `q` pair. -/
theorem absent_filters_emit_no_keys :
    (getPoolsQuery GetPoolsParams.default = [] ∧
     getTokensQuery none none none none none none = [] ∧
     ∀ qq : String, searchPoolsQuery { q := qq } = [("q", qq)]) ∧
    (∀ p : GetPoolsParams,
      (p.sort_by = none → "sortBy" ∉ queryKeys (getPoolsQuery p)) ∧
      (p.sort_direction = none → "sortDirection" ∉ queryKeys (getPoolsQuery p)) ∧
      (p.next = none → "next" ∉ queryKeys (getPoolsQuery p)) ∧
      (p.previous = none → "previous" ∉ queryKeys (getPoolsQuery p)) ∧
      (p.has_rewards = none → "hasRewards" ∉ queryKeys (getPoolsQuery p)) ∧
      (p.has_warning = none → "hasWarning" ∉ queryKeys (getPoolsQuery p)) ∧
      (p.has_adaptive_fee = none → "hasAdaptiveFee" ∉ queryKeys (getPoolsQuery p)) ∧
      (p.is_wavebreak = none → "isWavebreak" ∉ queryKeys (getPoolsQuery p)) ∧
      (p.min_tvl = none → "minTvl" ∉ queryKeys (getPoolsQuery p)) ∧
      (p.min_volume = none → "minVolume" ∉ queryKeys (getPoolsQuery p)) ∧
      (p.min_locked_liquidity_percent = none →
        "minLockedLiquidityPercent" ∉ queryKeys (getPoolsQuery p)) ∧
      (p.size = none → "size" ∉ queryKeys (getPoolsQuery p)) ∧
      (p.token = none → "token" ∉ queryKeys (getPoolsQuery p)) ∧
      (p.tokens_both_of = none → "tokensBothOf" ∉ queryKeys (getPoolsQuery p)) ∧
      (p.addresses = none → "addresses" ∉ queryKeys (getPoolsQuery p)) ∧
      (p.stats = none → "stats" ∉ queryKeys (getPoolsQuery p)) ∧
      (p.include_blocked = none → "includeBlocked" ∉ queryKeys (getPoolsQuery p))) ∧
    (∀ (next previous : Option String) (size : Option Nat)
        (sort_by sort_direction tokens : Option String),
      (next = none → "next" ∉
        queryKeys (getTokensQuery next previous size sort_by sort_direction tokens)) ∧
      (previous = none → "previous" ∉
        queryKeys (getTokensQuery next previous size sort_by sort_direction tokens)) ∧
      (size = none → "size" ∉
        queryKeys (getTokensQuery next previous size sort_by sort_direction tokens)) ∧
      (sort_by = none → "sort_by" ∉
        queryKeys (getTokensQuery next previous size sort_by sort_direction tokens)) ∧
      (sort_direction = none → "sort_direction" ∉
        queryKeys (getTokensQuery next previous size sort_by sort_direction tokens)) ∧
      (tokens = none → "tokens" ∉
        queryKeys (getTokensQuery next previous size sort_by sort_direction tokens))) ∧
    (∀ p : SearchPoolsParams,
      (p.next = none → "next" ∉ queryKeys (searchPoolsQuery p)) ∧
      (p.size = none → "size" ∉ queryKeys (searchPoolsQuery p)) ∧
      (p.sort_by = none → "sortBy" ∉ queryKeys (searchPoolsQuery p)) ∧
      (p.sort_direction = none → "sortDirection" ∉ queryKeys (searchPoolsQuery p)) ∧
      (p.min_tvl = none → "minTvl" ∉ queryKeys (searchPoolsQuery p)) ∧
      (p.min_volume = none → "minVolume" ∉ queryKeys (searchPoolsQuery p)) ∧
      (p.stats = none → "stats" ∉ queryKeys (searchPoolsQuery p)) ∧
      (p.user_tokens = none → "userTokens" ∉ queryKeys (searchPoolsQuery p)) ∧
      (p.has_rewards = none → "hasRewards" ∉ queryKeys (searchPoolsQuery p)) ∧
      (p.verified_only = none → "verifiedOnly" ∉ queryKeys (searchPoolsQuery p)) ∧
      (p.has_locked_liquidity = none →
        "hasLockedLiquidity" ∉ queryKeys (searchPoolsQuery p))) := by
  refine ⟨⟨rfl, rfl, fun qq => rfl⟩, fun p => ?_, fun n pv sz sb sd tk => ?_, fun p => ?_⟩
  · refine ⟨?_, ?_, ?_, ?_, ?_, ?_, ?_, ?_, ?_, ?_, ?_, ?_, ?_, ?_, ?_, ?_, ?_⟩ <;>
      (intro h; rw [mem_queryKeys_getPools]; simp [h])
  · refine ⟨?_, ?_, ?_, ?_, ?_, ?_⟩ <;>
      (intro h; rw [mem_queryKeys_getTokens]; simp [h])
  · refine ⟨?_, ?_, ?_, ?_, ?_, ?_, ?_, ?_, ?_, ?_, ?_⟩ <;>
      (intro h; rw [mem_queryKeys_searchPools]; simp [h])

/-- Witness for C2 at a concrete input: the default (all-`None`)
`get_pools` parameters emit no `sortBy` key. -/
theorem absent_filters_emit_no_keys_witness :
    "sortBy" ∉ queryKeys (getPoolsQuery GetPoolsParams.default) :=
  (absent_filters_emit_no_keys.2.1 GetPoolsParams.default).1 rfl

/-- The `token` pairs of a `get_pools` query are exactly the `token`
filter's elements, rendered and in order. -/
theorem filterKey_getPools_token (p : GetPoolsParams) :
    filterKey (getPoolsQuery p) "token" = repPairs "token" Nat.repr p.token := by
  simp only [getPoolsQuery, filterKey_append, filterKey_optPair, filterKey_repPairs]
  simp

/-- The `tokensBothOf` pairs of a `get_pools` query. -/
theorem filterKey_getPools_tokensBothOf (p : GetPoolsParams) :
    filterKey (getPoolsQuery p) "tokensBothOf" = repPairs "tokensBothOf" id p.tokens_both_of := by
  simp only [getPoolsQuery, filterKey_append, filterKey_optPair, filterKey_repPairs]
  simp

/-- The `addresses` pairs of a `get_pools` query. -/
theorem filterKey_getPools_addresses (p : GetPoolsParams) :
    filterKey (getPoolsQuery p) "addresses" = repPairs "addresses" id p.addresses := by
  simp only [getPoolsQuery, filterKey_append, filterKey_optPair, filterKey_repPairs]
  simp

/-- The `stats` pairs of a `get_pools` query. -/
theorem filterKey_getPools_stats (p : GetPoolsParams) :
    filterKey (getPoolsQuery p) "stats" = repPairs "stats" timePeriodQueryValue p.stats := by
  simp only [getPoolsQuery, filterKey_append, filterKey_optPair, filterKey_repPairs]
  simp

/-- The `stats` pairs of a `search_pools` query. -/
theorem filterKey_searchPools_stats (p : SearchPoolsParams) :
    filterKey (searchPoolsQuery p) "stats" = repPairs "stats" timePeriodQueryValue p.stats := by
  simp only [searchPoolsQuery, filterKey_append, filterKey_optPair, filterKey_repPairs]
  simp [filterKey]

/-- The `userTokens` pairs of a `search_pools` query. -/
theorem filterKey_searchPools_userTokens (p : SearchPoolsParams) :
    filterKey (searchPoolsQuery p) "userTokens" = repPairs "userTokens" id p.user_tokens := by
  simp only [searchPoolsQuery, filterKey_append, filterKey_optPair, filterKey_repPairs]
  simp [filterKey]

/-- C3: every array-valued filter (`get_pools`: token, tokensBothOf,
addresses, stats; `search_pools`: stats, userTokens) given elements
`[a, b, c]` emits exactly three pairs under that key, one per element in
input order — never a single comma-joined value. -/
theorem array_filters_repeated_keys :
    (∀ (p : GetPoolsParams) (a b c : Nat), p.token = some [a, b, c] →
      filterKey (getPoolsQuery p) "token" =
        [("token", Nat.repr a), ("token", Nat.repr b), ("token", Nat.repr c)]) ∧
    (∀ (p : GetPoolsParams) (a b c : String), p.tokens_both_of = some [a, b, c] →
      filterKey (getPoolsQuery p) "tokensBothOf" =
        [("tokensBothOf", a), ("tokensBothOf", b), ("tokensBothOf", c)]) ∧
    (∀ (p : GetPoolsParams) (a b c : String), p.addresses = some [a, b, c] →
      filterKey (getPoolsQuery p) "addresses" =
        [("addresses", a), ("addresses", b), ("addresses", c)]) ∧
    (∀ (p : GetPoolsParams) (a b c : TimePeriod), p.stats = some [a, b, c] →
      filterKey (getPoolsQuery p) "stats" =
        [("stats", TimePeriod.wireString a), ("stats", TimePeriod.wireString b),
         ("stats", TimePeriod.wireString c)]) ∧
    (∀ (p : SearchPoolsParams) (a b c : TimePeriod), p.stats = some [a, b, c] →
      filterKey (searchPoolsQuery p) "stats" =
        [("stats", TimePeriod.wireString a), ("stats", TimePeriod.wireString b),
         ("stats", TimePeriod.wireString c)]) ∧
    (∀ (p : SearchPoolsParams) (a b c : String), p.user_tokens = some [a, b, c] →
      filterKey (searchPoolsQuery p) "userTokens" =
        [("userTokens", a), ("userTokens", b), ("userTokens", c)]) := by
  refine ⟨fun p a b c h => ?_, fun p a b c h => ?_, fun p a b c h => ?_,
          fun p a b c h => ?_, fun p a b c h => ?_, fun p a b c h => ?_⟩
  · rw [filterKey_getPools_token, h]; rfl
  · rw [filterKey_getPools_tokensBothOf, h]; rfl
  · rw [filterKey_getPools_addresses, h]; rfl
  · rw [filterKey_getPools_stats, h]; rfl
  · rw [filterKey_searchPools_stats, h]; rfl
  · rw [filterKey_searchPools_userTokens, h]; rfl

/-- Witness for C3 at a concrete input: the `token` filter `[7, 8, 9]`
emits exactly three repeated `token` pairs in order. -/
theorem array_filters_repeated_keys_witness :
    filterKey (getPoolsQuery { GetPoolsParams.default with token := some [7, 8, 9] })
        "token" = [("token", "7"), ("token", "8"), ("token", "9")] :=
  array_filters_repeated_keys.1 _ 7 8 9 rfl

/-- C8 counterexample: `get_tokens` emits its sort-by filter under the
snake_case key `sort_by` — identical to the semantic field name, not a
camelCase wire key — refuting the claim that every list/filter endpoint
uses camelCase wire keys distinct from the snake_case names. -/
theorem getTokens_snake_case_counterexample :
    getTokensQuery none none none (some "volume") none none = [("sort_by", "volume")] ∧
    "sortBy" ∉ queryKeys (getTokensQuery none none none (some "volume") none none) := by
  refine ⟨rfl, ?_⟩
  rw [mem_queryKeys_getTokens]
  simp

/-- C8 amended: `get_pools` (and `search_pools`) emit camelCase wire keys
(`sortBy`, `sortDirection`) distinct from the snake_case field names, but
`get_tokens` emits its sort filters under the snake_case keys `sort_by`
and `sort_direction`, identical to its field names. -/
theorem sort_filter_wire_keys :
    (∀ v, getPoolsQuery { GetPoolsParams.default with sort_by := some v } =
      [("sortBy", v)]) ∧
    (∀ v, getPoolsQuery { GetPoolsParams.default with sort_direction := some v } =
      [("sortDirection", v)]) ∧
    (∀ qq v, searchPoolsQuery { q := qq, sort_by := some v } =
      [("q", qq), ("sortBy", v)]) ∧
    (∀ v, getTokensQuery none none none (some v) none none = [("sort_by", v)]) ∧
    (∀ v, getTokensQuery none none none none (some v) none = [("sort_direction", v)]) := by
  refine ⟨fun v => ?_, fun v => ?_, fun qq v => ?_, fun v => rfl, fun v => rfl⟩ <;>
    simp [getPoolsQuery, searchPoolsQuery, GetPoolsParams.default, optPair, repPairs]

/-- C9 counterexample: a syntactically invalid base URL is accepted
silently at construction — `with_base_url` is infallible and just stores
the string — and the failure only surfaces later, at the first request,
when `Url::parse` runs; this refutes surfacing at construction time. -/
theorem with_base_url_defers_error_counterexample :
    OrcaClient.with_base_url "not a url" = ⟨"not a url"⟩ ∧
    getTokensRequest (OrcaClient.with_base_url "not a url") "solana"
        none none none none none none = .error .urlParse := by
  refine ⟨rfl, ?_⟩
  have h : urlParseOk "not a url/solana/tokens" = false := by decide
  simp [getTokensRequest, OrcaClient.with_base_url, h]

/-- C9 amended: client construction never fails — `with_base_url` stores
the base URL verbatim — and base-URL + path composition is validated per
call: a list-endpoint request succeeds exactly when the composed URL
parses, so a malformed base URL surfaces as an error at the first request
rather than at construction. -/
theorem with_base_url_total_parse_at_call (s chain : String) :
    OrcaClient.with_base_url s = ⟨s⟩ ∧
    ((∃ r, getTokensRequest (OrcaClient.with_base_url s) chain
        none none none none none none = .ok r) ↔
      urlParseOk (s ++ "/" ++ chain ++ "/tokens") = true) ∧
    ((∃ r, getPoolsRequest (OrcaClient.with_base_url s) chain
        GetPoolsParams.default = .ok r) ↔
      urlParseOk (s ++ "/" ++ chain ++ "/pools") = true) := by
  refine ⟨rfl, ?_, ?_⟩
  · cases h : urlParseOk (s ++ "/" ++ chain ++ "/tokens") <;>
      simp [getTokensRequest, OrcaClient.with_base_url, h]
  · cases h : urlParseOk (s ++ "/" ++ chain ++ "/pools") <;>
      simp [getPoolsRequest, OrcaClient.with_base_url, h]

/-! ## Decode-side helper lemmas -/

theorem reqField_some {kvs : List (String × Json)} {key : String}
    {dec : Json → Option α} {a : α} (h : reqField kvs key dec = some a) :
    ∃ v, lookupField kvs key = some v ∧ dec v = some a := by
  simpa only [reqField, Option.bind_eq_some] using h

theorem decodeString_some {j : Json} {s : String} (h : decodeString j = some s) :
    j = .str s := by
  cases j <;> simp_all [decodeString]

theorem decodeList_some {dec : Json → Option α} {j : Json} {l : List α}
    (h : decodeList dec j = some l) : ∃ xs, j = .arr xs := by
  cases j <;> simp_all [decodeList]

theorem optField_lookup_none {kvs : List (String × Json)} {key : String}
    {dec : Json → Option α} (h : lookupField kvs key = none) :
    optField kvs key dec = some none := by
  simp [optField, h]

theorem optField_lookup_null {kvs : List (String × Json)} {key : String}
    {dec : Json → Option α} (h : lookupField kvs key = some .null) :
    optField kvs key dec = some none := by
  simp [optField, h]

/-! ## C1: status codes and malformed bodies -/

/-- C1 counterexample: a response with status 500 whose body happens to
decode as `ProtocolInfo` yields `Ok` — the crate never consults the
status code (no `error_for_status`), so a non-2xx status alone does not
produce an error, refuting the claim that no call can succeed on a
non-success status. -/
theorem non2xx_success_counterexample :
    getProtocolInfoResult
      ⟨500, some (.obj [("fees24hUsdc", .str "317428.0521046"),
                        ("revenue24hUsdc", .str "41265.646773"),
                        ("tvl", .str "230551269.0085"),
                        ("volume24hUsdc", .str "552567794.7830")])⟩ =
      .ok ⟨"317428.0521046", "41265.646773", "230551269.0085", "552567794.7830"⟩ := by
  rfl

/-- C1 amended: a malformed JSON body, or one that does not decode to the
target shape, always yields a decode error; but the HTTP status code is
never consulted — the outcome is a function of the body alone, and any
response whose body decodes returns `Ok`, non-2xx status included. -/
theorem malformed_body_errors_status_ignored (r : HttpResponse) :
    (r.body = none →
      getProtocolInfoResult r = .error .decode ∧ getPoolsResult r = .error .decode) ∧
    (∀ j, r.body = some j → decodeProtocolInfo j = none →
      getProtocolInfoResult r = .error .decode) ∧
    (∀ j, r.body = some j → decodePaginated decodeWhirlpool j = none →
      getPoolsResult r = .error .decode) ∧
    (∀ s : Nat,
      getProtocolInfoResult ⟨s, r.body⟩ = getProtocolInfoResult r ∧
      getPoolsResult ⟨s, r.body⟩ = getPoolsResult r) ∧
    (∀ j v, r.body = some j → decodeProtocolInfo j = some v →
      getProtocolInfoResult r = .ok v) := by
  refine ⟨fun h => ?_, fun j hj hd => ?_, fun j hj hd => ?_, fun s => ?_, fun j v hj hd => ?_⟩
  · simp [getProtocolInfoResult, getPoolsResult, responseJson, h]
  · simp [getProtocolInfoResult, responseJson, hj, hd]
  · simp [getPoolsResult, responseJson, hj, hd]
  · simp [getProtocolInfoResult, getPoolsResult, responseJson]
  · simp [getProtocolInfoResult, responseJson, hj, hd]

/-- Witness for C1's amended theorem at a concrete input: a status-200
response with a non-JSON body is a decode error. -/
theorem malformed_body_errors_status_ignored_witness :
    getProtocolInfoResult ⟨200, none⟩ = .error .decode ∧
    getPoolsResult ⟨200, none⟩ = .error .decode :=
  (malformed_body_errors_status_ignored ⟨200, none⟩).1 rfl

/-! ## Extraction lemmas: what a successful decode implies about the input -/

/-- A successful `SimpleTokenInfo` decode requires every one of its seven
wire keys — `imageUrl` included — to be present. -/
theorem decodeSimpleTokenInfo_some {kvs : List (String × Json)} {t : SimpleTokenInfo}
    (h : decodeSimpleTokenInfo (.obj kvs) = some t) :
    (∃ v, lookupField kvs "address" = some v) ∧
    (∃ v, lookupField kvs "decimals" = some v) ∧
    (∃ v, lookupField kvs "imageUrl" = some v) ∧
    (∃ v, lookupField kvs "name" = some v) ∧
    (∃ v, lookupField kvs "programId" = some v) ∧
    (∃ v, lookupField kvs "symbol" = some v) ∧
    (∃ v, lookupField kvs "tags" = some v) := by
  simp only [decodeSimpleTokenInfo, reqField, bind, Option.bind_eq_some,
    Option.some.injEq] at h
  obtain ⟨a, ⟨va, hva, -⟩, d, ⟨vd, hvd, -⟩, iu, ⟨viu, hviu, -⟩, n, ⟨vn, hvn, -⟩,
    pid, ⟨vp, hvp, -⟩, sym, ⟨vsym, hvsym, -⟩, tg, ⟨vt, hvt, -⟩, -⟩ := h
  exact ⟨⟨va, hva⟩, ⟨vd, hvd⟩, ⟨viu, hviu⟩, ⟨vn, hvn⟩, ⟨vp, hvp⟩, ⟨vsym, hvsym⟩, ⟨vt, hvt⟩⟩

/-- A successful `Token` decode requires its required keys and binds its
two `Option`-typed authority fields through `optField`. -/
theorem decodeToken_some {kvs : List (String × Json)} {t : Token}
    (h : decodeToken (.obj kvs) = some t) :
    (∃ v, lookupField kvs "priceUsdc" = some v) ∧
    optField kvs "freezeAuthority" decodeString = some t.freeze_authority ∧
    optField kvs "mintAuthority" decodeString = some t.mint_authority := by
  simp only [decodeToken, Option.bind_eq_some, Option.map_eq_some'] at h
  obtain ⟨a, ha, b, hb, ht⟩ := h
  subst ht
  simp only [decodeTokenA, reqField, bind, Option.bind_eq_some, Option.some.injEq] at ha
  obtain ⟨ad, ⟨va, hva, -⟩, d, ⟨vd, hvd, -⟩, ex, ⟨ve, hve, -⟩, fa, hfa, ii, ⟨vi, hvi, -⟩,
    md, ⟨vm, hvm, -⟩, ma, hma, pu, ⟨vpu, hvpu, -⟩, hta⟩ := ha
  subst hta
  exact ⟨⟨vpu, hvpu⟩, hfa, hma⟩

/-- A successful decode of `Whirlpool` fields 11-20 pins down the vault
fields: `tokenVaultA` decoded as a `u64` array, `tokenVaultB` as a string. -/
theorem decodeWhirlpoolB_some {kvs : List (String × Json)}
    {b : Int × Nat × String × String × String × List Nat × String × String × Nat × String}
    (h : decodeWhirlpoolB kvs = some b) :
    (∃ v, lookupField kvs "tokenVaultA" = some v ∧
      decodeList (decodeUInt 64) v = some b.2.2.2.2.2.1) ∧
    (∃ v, lookupField kvs "tokenVaultB" = some v ∧
      decodeString v = some b.2.2.2.2.2.2.1) := by
  simp only [decodeWhirlpoolB, reqField, bind, Option.bind_eq_some, Option.some.injEq] at h
  obtain ⟨tci, ⟨v1, hv1, -⟩, ts, ⟨v2, hv2, -⟩, tss, ⟨v3, hv3, -⟩, tma, ⟨v4, hv4, -⟩,
    tmb, ⟨v5, hv5, -⟩, tva, ⟨v6, hv6, hd6⟩, tvb, ⟨v7, hv7, hd7⟩, ua, ⟨v8, hv8, -⟩,
    us, ⟨v9, hv9, -⟩, wb, ⟨v10, hv10, -⟩, hb⟩ := h
  subst hb
  exact ⟨⟨v6, hv6, hd6⟩, ⟨v7, hv7, hd7⟩⟩

/-- A successful decode of `Whirlpool` fields 31-39 pins down the decoded
`stats` map. -/
theorem decodeWhirlpoolD_some {kvs : List (String × Json)}
    {d : List Reward × List (TimePeriod × PoolStats) × SimpleTokenInfo ×
         SimpleTokenInfo × String × String × String × String × String}
    (h : decodeWhirlpoolD kvs = some d) :
    ∃ v, lookupField kvs "stats" = some v ∧ decodeStats v = some d.2.1 := by
  simp only [decodeWhirlpoolD, reqField, bind, Option.bind_eq_some, Option.some.injEq] at h
  obtain ⟨rwds, ⟨v1, hv1, -⟩, st, ⟨v2, hv2, hs2⟩, ta, ⟨v3, hv3, -⟩, tb, ⟨v4, hv4, -⟩,
    tba, ⟨v5, hv5, -⟩, tbb, ⟨v6, hv6, -⟩, tet, ⟨v7, hv7, -⟩, tvl, ⟨v8, hv8, -⟩,
    yot, ⟨v9, hv9, -⟩, hd⟩ := h
  subst hd
  exact ⟨v2, hv2, hs2⟩

/-- A successful `Whirlpool` decode pins down its vault fields and its
decoded `stats` map. -/
theorem decodeWhirlpool_parts {kvs : List (String × Json)} {w : Whirlpool}
    (h : decodeWhirlpool (.obj kvs) = some w) :
    (∃ v, lookupField kvs "tokenVaultA" = some v ∧
      decodeList (decodeUInt 64) v = some w.token_vault_a) ∧
    (∃ v, lookupField kvs "tokenVaultB" = some v ∧
      decodeString v = some w.token_vault_b) ∧
    (∃ v, lookupField kvs "stats" = some v ∧ decodeStats v = some w.stats) := by
  simp only [decodeWhirlpool, Option.bind_eq_some, Option.map_eq_some'] at h
  obtain ⟨a, -, b, hb, c, -, d, hd, hw⟩ := h
  subst hw
  obtain ⟨⟨v6, hv6, hd6⟩, ⟨v7, hv7, hd7⟩⟩ := decodeWhirlpoolB_some hb
  obtain ⟨v2, hv2, hs2⟩ := decodeWhirlpoolD_some hd
  exact ⟨⟨v6, hv6, hd6⟩, ⟨v7, hv7, hd7⟩, ⟨v2, hv2, hs2⟩⟩

/-- Only a JSON object can decode as a stats map. -/
theorem decodeStats_some_obj {j : Json} {m : List (TimePeriod × PoolStats)}
    (h : decodeStats j = some m) : ∃ skvs, j = .obj skvs := by
  cases j <;> simp_all [decodeStats]

/-- A stats object containing any key outside the closed `TimePeriod`
enumeration fails to decode. -/
theorem decodeStats_badKey {skvs : List (String × Json)} {k : String} {v : Json}
    (hmem : (k, v) ∈ skvs) (hbad : TimePeriod.fromWireString k = none) :
    decodeStats (.obj skvs) = none := by
  induction skvs with
  | nil => cases hmem
  | cons kv rest ih =>
    rcases List.mem_cons.mp hmem with heq | hmem2
    · subst heq
      simp [decodeStats, decodeStatsList, decodeStatsEntry, decodeTimePeriodKey, hbad]
    · cases hfk : decodeStatsEntry kv with
      | none => simp [decodeStats, decodeStatsList, hfk]
      | some e =>
        have ih2 : decodeStatsList rest = none := by
          simpa [decodeStats] using ih hmem2
        simp [decodeStats, decodeStatsList, hfk, ih2]

/-- A stats object whose keys are all valid `TimePeriod` literals and
whose values all decode as `PoolStats` decodes to a map containing the
decoded entry of every input pair. -/
theorem decodeStats_allValid {skvs : List (String × Json)}
    (h : ∀ kv ∈ skvs, ∃ tp ps, decodeTimePeriodKey kv.1 = some tp ∧
      decodePoolStats kv.2 = some ps) :
    ∃ m, decodeStats (.obj skvs) = some m ∧
      ∀ kv ∈ skvs, ∀ tp ps, decodeTimePeriodKey kv.1 = some tp →
        decodePoolStats kv.2 = some ps → (tp, ps) ∈ m := by
  induction skvs with
  | nil => exact ⟨[], rfl, by simp⟩
  | cons kv rest ih =>
    obtain ⟨tp, ps, htp, hps⟩ := h kv (List.mem_cons_self kv rest)
    obtain ⟨m, hm, hmem⟩ := ih (fun kv2 h2 => h kv2 (List.mem_cons_of_mem kv h2))
    refine ⟨(tp, ps) :: m, ?_, ?_⟩
    · have hrest : decodeStatsList rest = some m := by simpa [decodeStats] using hm
      simp [decodeStats, decodeStatsList, decodeStatsEntry, htp, hps, hrest]
    · intro kv2 h2 tp2 ps2 htp2 hps2
      rcases List.mem_cons.mp h2 with heq | h3
      · subst heq
        rw [htp, Option.some.injEq] at htp2
        rw [hps, Option.some.injEq] at hps2
        subst htp2
        subst hps2
        exact List.mem_cons_self _ _
      · exact List.mem_cons_of_mem _ (hmem kv2 h3 tp2 ps2 htp2 hps2)

/-! ## C7: per-field required/optional status -/

/-- C7 counterexample: a `SimpleTokenInfo` JSON object supplying exactly
the fields the specification's entity table lists (address, decimals,
symbol, name, programId, tags) fails to parse, because the struct also
requires `imageUrl`. -/
theorem simpleTokenInfo_spec_fields_counterexample :
    decodeSimpleTokenInfo (.obj
      [("address", .str "So11111111111111111111111111111111111111112"),
       ("decimals", .num 9), ("symbol", .str "SOL"), ("name", .str "Wrapped SOL"),
       ("programId", .str "TokenkegQfeZyiNwAJbNbGKPFXCWuBvf9Ss623VQ5DA"),
       ("tags", .str "[]")]) = none := rfl

/-- C7 amended: `SimpleTokenInfo` requires `imageUrl` in addition to the
six fields the entity table lists; with all seven supplied the parse
succeeds. Otherwise the required/optional statuses hold as claimed: a
missing required field (shown for `imageUrl` and `address` on
`SimpleTokenInfo` and `priceUsdc` on `Token`) is a parse failure, and a
missing or `null` `Option`-typed field (`freezeAuthority`,
`mintAuthority` on `Token`) yields an absent value. -/
theorem entity_field_requirements :
    (∀ (a iu n pid sym tg : String) (d : Nat), d < 256 →
      decodeSimpleTokenInfo (.obj
        [("address", .str a), ("decimals", .num (d : Int)), ("imageUrl", .str iu),
         ("name", .str n), ("programId", .str pid), ("symbol", .str sym),
         ("tags", .str tg)]) = some ⟨a, d, iu, n, pid, sym, tg⟩) ∧
    (∀ (kvs : List (String × Json)), lookupField kvs "imageUrl" = none →
      decodeSimpleTokenInfo (.obj kvs) = none) ∧
    (∀ (kvs : List (String × Json)), lookupField kvs "address" = none →
      decodeSimpleTokenInfo (.obj kvs) = none) ∧
    (∀ (kvs : List (String × Json)), lookupField kvs "priceUsdc" = none →
      decodeToken (.obj kvs) = none) ∧
    (∀ (kvs : List (String × Json)) (t : Token), decodeToken (.obj kvs) = some t →
      (lookupField kvs "freezeAuthority" = none → t.freeze_authority = none) ∧
      (lookupField kvs "freezeAuthority" = some .null → t.freeze_authority = none) ∧
      (lookupField kvs "mintAuthority" = none → t.mint_authority = none) ∧
      (lookupField kvs "mintAuthority" = some .null → t.mint_authority = none)) := by
  refine ⟨fun a iu n pid sym tg d hd => ?_, fun kvs h => ?_, fun kvs h => ?_,
    fun kvs h => ?_, fun kvs t hdec => ?_⟩
  · have h1 : (0 : Int) ≤ (d : Int) := Int.natCast_nonneg d
    have h2 : (d : Int) < 2 ^ 8 := by exact_mod_cast hd
    simp [decodeSimpleTokenInfo, reqField, lookupField, decodeString, decodeUInt, h1, h2, hd]
  · cases hdec : decodeSimpleTokenInfo (.obj kvs) with
    | none => rfl
    | some t =>
      obtain ⟨-, -, ⟨v, hv⟩, -, -, -, -⟩ := decodeSimpleTokenInfo_some hdec
      rw [h] at hv
      cases hv
  · cases hdec : decodeSimpleTokenInfo (.obj kvs) with
    | none => rfl
    | some t =>
      obtain ⟨⟨v, hv⟩, -, -, -, -, -, -⟩ := decodeSimpleTokenInfo_some hdec
      rw [h] at hv
      cases hv
  · cases hdec : decodeToken (.obj kvs) with
    | none => rfl
    | some t =>
      obtain ⟨⟨v, hv⟩, -, -⟩ := decodeToken_some hdec
      rw [h] at hv
      cases hv
  · obtain ⟨-, hfa, hma⟩ := decodeToken_some hdec
    refine ⟨fun h => ?_, fun h => ?_, fun h => ?_, fun h => ?_⟩
    · rw [optField_lookup_none h] at hfa
      exact (Option.some.inj hfa).symm
    · rw [optField_lookup_null h] at hfa
      exact (Option.some.inj hfa).symm
    · rw [optField_lookup_none h] at hma
      exact (Option.some.inj hma).symm
    · rw [optField_lookup_null h] at hma
      exact (Option.some.inj hma).symm

/-- Witness for C7's amended theorem at a concrete input: the seven
fields, `imageUrl` included, parse successfully. -/
theorem entity_field_requirements_witness :
    decodeSimpleTokenInfo (.obj
      [("address", .str "So1"), ("decimals", .num ((9 : Nat) : Int)),
       ("imageUrl", .str "img"), ("name", .str "SOL"), ("programId", .str "prog"),
       ("symbol", .str "S"), ("tags", .str "[]")]) =
      some ⟨"So1", 9, "img", "SOL", "prog", "S", "[]"⟩ :=
  entity_field_requirements.1 "So1" "img" "SOL" "prog" "S" "[]" 9 (by decide)

/-! ## C6: the stats map is a closed enumeration -/

/-- C6: parsing a `Whirlpool` whose `stats` object contains a key
outside the nine `TimePeriod` wire strings fails; a stats object whose
keys are all valid literals (with `PoolStats` values) decodes, mapping
each entry to its decoded key/value pair; and every successful
`Whirlpool` parse carries a successfully decoded stats object. -/
theorem whirlpool_stats_closed_enum :
    (∀ (kvs skvs : List (String × Json)) (k : String) (v : Json),
      lookupField kvs "stats" = some (.obj skvs) → (k, v) ∈ skvs →
      TimePeriod.fromWireString k = none → decodeWhirlpool (.obj kvs) = none) ∧
    (∀ skvs : List (String × Json),
      (∀ kv ∈ skvs, ∃ tp ps, decodeTimePeriodKey kv.1 = some tp ∧
        decodePoolStats kv.2 = some ps) →
      ∃ m, decodeStats (.obj skvs) = some m ∧
        ∀ kv ∈ skvs, ∀ tp ps, decodeTimePeriodKey kv.1 = some tp →
          decodePoolStats kv.2 = some ps → (tp, ps) ∈ m) ∧
    (∀ (kvs : List (String × Json)) (w : Whirlpool),
      decodeWhirlpool (.obj kvs) = some w →
      ∃ skvs, lookupField kvs "stats" = some (.obj skvs) ∧
        decodeStats (.obj skvs) = some w.stats) := by
  refine ⟨fun kvs skvs k v hlook hmem hbad => ?_,
    fun skvs h => decodeStats_allValid h, fun kvs w h => ?_⟩
  · cases hdec : decodeWhirlpool (.obj kvs) with
    | none => rfl
    | some w =>
      exfalso
      obtain ⟨-, -, v2, hv2, hs2⟩ := decodeWhirlpool_parts hdec
      rw [hlook] at hv2
      injection hv2 with hv2
      subst hv2
      rw [decodeStats_badKey hmem hbad] at hs2
      cases hs2
  · obtain ⟨-, -, v2, hv2, hs2⟩ := decodeWhirlpool_parts h
    obtain ⟨skvs, rfl⟩ := decodeStats_some_obj hs2
    exact ⟨skvs, hv2, hs2⟩

/-- Witness for C6 at a concrete input: `"7d"` is not a `TimePeriod`
wire string, and a whirlpool payload whose stats object contains it
fails to parse. -/
theorem whirlpool_stats_closed_enum_witness :
    TimePeriod.fromWireString "7d" = none ∧
    decodeWhirlpool (.obj [("stats", .obj [("7d", .null)])]) = none :=
  ⟨rfl, whirlpool_stats_closed_enum.1 _ _ "7d" .null rfl
    (List.mem_singleton.mpr rfl) rfl⟩

/-! ## C10: the two vault fields require different JSON types -/

/-- C10: a `Whirlpool` parse succeeds only when `tokenVaultA` is a JSON
array (of `u64`-range unsigned integers) and `tokenVaultB` is a JSON
string — so giving `tokenVaultA` a string, as every other address field
is encoded, is a decode failure. -/
theorem whirlpool_vault_type_mismatch :
    (∀ (kvs : List (String × Json)) (w : Whirlpool),
      decodeWhirlpool (.obj kvs) = some w →
      (∃ xs, lookupField kvs "tokenVaultA" = some (.arr xs)) ∧
      (∃ s, lookupField kvs "tokenVaultB" = some (.str s))) ∧
    (∀ (kvs : List (String × Json)) (s : String),
      lookupField kvs "tokenVaultA" = some (.str s) →
      decodeWhirlpool (.obj kvs) = none) := by
  refine ⟨fun kvs w h => ?_, fun kvs s hlook => ?_⟩
  · obtain ⟨⟨v, hv, hdv⟩, ⟨v2, hv2, hdv2⟩, -⟩ := decodeWhirlpool_parts h
    obtain ⟨xs, rfl⟩ := decodeList_some hdv
    obtain rfl := decodeString_some hdv2
    exact ⟨⟨xs, hv⟩, ⟨w.token_vault_b, hv2⟩⟩
  · cases hdec : decodeWhirlpool (.obj kvs) with
    | none => rfl
    | some w =>
      exfalso
      obtain ⟨⟨v, hv, hdv⟩, -, -⟩ := decodeWhirlpool_parts hdec
      rw [hlook] at hv
      injection hv with hv
      subst hv
      simp [decodeList] at hdv

/-- A complete well-formed `Whirlpool` JSON object (every required wire
key present, `tokenVaultA` an array of integers, `tokenVaultB` a
string), used to witness C10 concretely. -/
def wpExampleKvs : List (String × Json) :=
  [("address", .str "Pool1"),
   ("feeGrowthGlobalA", .str "0"),
   ("feeGrowthGlobalB", .str "0"),
   ("feeRate", .num 3000),
   ("liquidity", .str "0"),
   ("protocolFeeOwedA", .str "0"),
   ("protocolFeeOwedB", .str "0"),
   ("protocolFeeRate", .num 300),
   ("rewardLastUpdatedTimestamp", .str "0"),
   ("sqrtPrice", .str "1"),
   ("tickCurrentIndex", .num 0),
   ("tickSpacing", .num 64),
   ("tickSpacingSeed", .str "64"),
   ("tokenMintA", .str "MintA"),
   ("tokenMintB", .str "MintB"),
   ("tokenVaultA", .arr [.num 1, .num 2]),
   ("tokenVaultB", .str "VaultB"),
   ("updatedAt", .str "2025-05-09T00:04:50Z"),
   ("updatedSlot", .num 5),
   ("whirlpoolBump", .str "255"),
   ("whirlpoolsConfig", .str "Config"),
   ("writeVersion", .str "1"),
   ("adaptiveFeeEnabled", .bool false),
   ("addressLookupTable", .arr []),
   ("feeTierIndex", .num 0),
   ("hasWarning", .bool false),
   ("poolType", .str "whirlpool"),
   ("price", .str "1"),
   ("rewards", .arr []),
   ("stats", .obj [("24h", .obj [("fees", .str "1"), ("rewards", .str "0"),
                                 ("volume", .str "2"), ("yieldOverTvl", .str "0")])]),
   ("tokenA", .obj [("address", .str "MintA"), ("decimals", .num 9),
                    ("imageUrl", .str "u"), ("name", .str "A"),
                    ("programId", .str "p"), ("symbol", .str "A"),
                    ("tags", .str "[]")]),
   ("tokenB", .obj [("address", .str "MintB"), ("decimals", .num 6),
                    ("imageUrl", .str "u"), ("name", .str "B"),
                    ("programId", .str "p"), ("symbol", .str "B"),
                    ("tags", .str "[]")]),
   ("tokenBalanceA", .str "0"),
   ("tokenBalanceB", .str "0"),
   ("tradeEnableTimestamp", .str "0"),
   ("tvlUsdc", .str "0"),
   ("yieldOverTvl", .str "0")]

/-- Witness for C10 at concrete inputs: the example payload decodes (so
the theorem applies, giving the array/string vault shapes), and turning
`tokenVaultA` into a string makes the whole parse fail. -/
theorem whirlpool_vault_type_mismatch_witness :
    ((∃ xs, lookupField wpExampleKvs "tokenVaultA" = some (.arr xs)) ∧
     (∃ s, lookupField wpExampleKvs "tokenVaultB" = some (.str s))) ∧
    decodeWhirlpool (.obj [("tokenVaultA", .str "VaultA")]) = none :=
  ⟨whirlpool_vault_type_mismatch.1 wpExampleKvs
      ((decodeWhirlpool (.obj wpExampleKvs)).get (by rfl))
      ((Option.some_get (by rfl)).symm),
   whirlpool_vault_type_mismatch.2 _ "VaultA" rfl⟩

end Orca









